import Mathlib

/-!
Shallow embedding of the retry/classification layer of the cocoa AWS client
wrappers (package ecs: src/ecs/client.go, package secret:
src/secret/secrets_manager_client.go), together with theorems settling the
spec claims about it.

Go string pointers are modelled as `Option String`, `*int64` as `Option Int`,
`error` values as `Option ECSError`, and a slice of `*ecs.Failure` as
`List (Option Failure)` (entries may be nil).
-/

/-- Dereference a Go string pointer, treating nil as the empty string
(utility.FromStringPtr). -/
def fromStringPtr : Option String → String
  | none => ""
  | some s => s

/-- Dereference a Go int64 pointer, treating nil as zero
(utility.FromInt64Ptr). -/
def fromInt64Ptr : Option Int → Int
  | none => 0
  | some n => n

/-- Substring containment on strings (Go strings.Contains). -/
def strContains (s sub : String) : Bool :=
  s.toList.tails.any (fun t => sub.toList.isPrefixOf t)

/-- AWS SDK error code constant ecs.ErrCodeAccessDeniedException. -/
def ecsErrCodeAccessDeniedException : String := "AccessDeniedException"

/-- AWS SDK error code constant ecs.ErrCodeClientException. -/
def ecsErrCodeClientException : String := "ClientException"

/-- AWS SDK error code constant ecs.ErrCodeInvalidParameterException. -/
def ecsErrCodeInvalidParameterException : String := "InvalidParameterException"

/-- AWS SDK error code constant ecs.ErrCodeClusterNotFoundException. -/
def ecsErrCodeClusterNotFoundException : String := "ClusterNotFoundException"

/-- AWS SDK error code constant request.InvalidParameterErrCode. -/
def requestInvalidParameterErrCode : String := "InvalidParameterError"

/-- AWS SDK error code constant request.ParamRequiredErrCode. -/
def requestParamRequiredErrCode : String := "ParamRequiredError"

/-- AWS SDK error code constant secretsmanager.ErrCodeInvalidParameterException. -/
def smErrCodeInvalidParameterException : String := "InvalidParameterException"

/-- AWS SDK error code constant secretsmanager.ErrCodeInvalidRequestException. -/
def smErrCodeInvalidRequestException : String := "InvalidRequestException"

/-- AWS SDK error code constant secretsmanager.ErrCodeResourceNotFoundException. -/
def smErrCodeResourceNotFoundException : String := "ResourceNotFoundException"

/-- AWS SDK error code constant secretsmanager.ErrCodeResourceExistsException. -/
def smErrCodeResourceExistsException : String := "ResourceExistsException"

/-- An AWS structured error (awserr.Error): a machine-readable code plus a
human-readable message. -/
structure AWSError where
  code : String
  message : String
deriving DecidableEq, Repr

/-- The full display text of an awserr.Error (awserr.SprintError renders the
code followed by the message). This is what awsErr.Error() returns and what
the capacity check of RunTask scans. -/
def AWSError.errorText (e : AWSError) : String :=
  e.code ++ ": " ++ e.message

/-- Errors produced by the client layer: a raw AWS error, the typed
cocoa.ECSTaskNotFound error carrying the task identifier, a plain message
error (errors.New), a wrapping of an inner error with a context message
(errors.Wrap, pkg/errors), or an aggregate of several errors
(grip catcher Resolve). -/
inductive ECSError where
  | aws (e : AWSError)
  | taskNotFound (id : String)
  | msg (s : String)
  | wrapped (label : String) (inner : ECSError)
  | multi (errs : List ECSError)

/-- Wrapping of a possibly-nil error with a context message: pkg/errors
errors.Wrap returns nil when the inner error is nil. -/
def errorsWrap (e : Option ECSError) (label : String) : Option ECSError :=
  match e with
  | none => none
  | some e => some (.wrapped label e)

/-- Embeds ecs.BasicClient.isNonRetryableErrorCode (src/ecs/client.go,
lines 313-325): the Go switch returns true exactly on the six listed
case constants. -/
def ecsIsNonRetryableErrorCode (code : String) : Bool :=
  if code = ecsErrCodeAccessDeniedException then true
  else if code = ecsErrCodeClientException then true
  else if code = ecsErrCodeInvalidParameterException then true
  else if code = ecsErrCodeClusterNotFoundException then true
  else if code = requestInvalidParameterErrCode then true
  else if code = requestParamRequiredErrCode then true
  else false

/-- Embeds secret.BasicSecretsManagerClient.isNonRetryableErrorCode
(src/secret/secrets_manager_client.go, lines 230-243). -/
def smIsNonRetryableErrorCode (code : String) : Bool :=
  if code = "AccessDeniedException" then true
  else if code = smErrCodeInvalidParameterException then true
  else if code = smErrCodeInvalidRequestException then true
  else if code = smErrCodeResourceNotFoundException then true
  else if code = smErrCodeResourceExistsException then true
  else if code = requestInvalidParameterErrCode then true
  else if code = requestParamRequiredErrCode then true
  else false

/-- A per-task launch failure inside a batch response (ecs.Failure): all three
fields are Go string pointers. -/
structure Failure where
  arn : Option String
  reason : Option String
  detail : Option String
deriving DecidableEq, Repr

/-- The constant ReasonTaskMissing (src/ecs/client.go line 374): the failure
reason indicating a task cannot be found because it is missing. -/
def ReasonTaskMissing : String := "MISSING"

/-- Embeds isTaskNotFoundFailure (src/ecs/client.go lines 367-369): the Arn
pointer is present (non-nil, even if it points at an empty string) and the
dereferenced reason equals ReasonTaskMissing. -/
def isTaskNotFoundFailure (f : Failure) : Bool :=
  f.arn.isSome && (fromStringPtr f.reason == ReasonTaskMissing)

/-- Embeds ConvertFailureToError (src/ecs/client.go lines 341-363). A nil
failure pointer converts to nil. A task-not-found failure converts to the
typed cocoa.ECSTaskNotFound error carrying the dereferenced Arn. Otherwise
the non-empty fields among Arn, Reason and Detail are each labelled and
joined; if all are empty a generic no-information error results. -/
def ConvertFailureToError (f : Option Failure) : Option ECSError :=
  match f with
  | none => none
  | some f =>
    if isTaskNotFoundFailure f then
      some (.taskNotFound (fromStringPtr f.arn))
    else
      let parts :=
        (if fromStringPtr f.arn ≠ "" then
          ["task \x27" ++ fromStringPtr f.arn ++ "\x27"] else []) ++
        (if fromStringPtr f.reason ≠ "" then
          ["(reason) " ++ fromStringPtr f.reason] else []) ++
        (if fromStringPtr f.detail ≠ "" then
          ["(detail) " ++ fromStringPtr f.detail] else [])
      if parts = [] then
        some (.msg "ECS failure did not contain any additional failure information")
      else
        some (.msg (String.intercalate ": " parts))

/-- Embeds isTaskNotFoundError (src/ecs/client.go lines 329-335): the error is
an AWS error (the type assertion succeeds) whose code is the ECS
invalid-parameter code and whose message contains the referenced-task-not-found
text. -/
def isTaskNotFoundError : ECSError → Bool
  | .aws e =>
    e.code == ecsErrCodeInvalidParameterException &&
      strContains e.message "The referenced task was not found"
  | _ => false

/-- The outcome of one remote call as seen by an attempt closure: a success
payload, a structured AWS error (the awserr type assertion succeeds), or some
other error. -/
inductive CallOutcome (α : Type) where
  | success (out : α)
  | awsError (e : AWSError)
  | otherError (m : String)

/-- An ECS task in a RunTask response; only its presence matters here. -/
structure ECSTask where
  taskArn : Option String
deriving DecidableEq, Repr

/-- The RunTask request fields the retry layer reads: the requested task
count, a Go int64 pointer. -/
structure RunTaskInput where
  count : Option Int
deriving DecidableEq, Repr

/-- The RunTask response fields the retry layer reads: the launched tasks and
the per-task failures (a slice of pointers, so entries may be nil). -/
structure RunTaskOutput where
  tasks : List ECSTask
  failures : List (Option Failure)
deriving DecidableEq, Repr

/-- The failure reasons RunTask treats as insufficient cluster resources
(src/ecs/client.go line 192). -/
def resourceReasons : List String := ["RESOURCE:CPU", "RESOURCE:MEMORY"]

/-- grip catcher Resolve: nil when no errors were collected, otherwise an
aggregate of the collected errors. -/
def catcherResolve (errs : List ECSError) : Option ECSError :=
  match errs with
  | [] => none
  | _ => some (.multi errs)

/-- The error-collection loop of the RunTask capacity heuristic
(src/ecs/client.go lines 187-195): skip nil failures, and for each failure
whose dereferenced reason is a resource reason, collect its converted error. -/
def runTaskResourceFailureErrors (out : RunTaskOutput) : List ECSError :=
  out.failures.filterMap (fun f =>
    match f with
    | none => none
    | some f =>
      if resourceReasons.contains (fromStringPtr f.reason) then
        ConvertFailureToError (some f)
      else
        none)

/-- Embeds the attempt closure of RunTask (src/ecs/client.go lines 160-199),
as a function of the request and of the call outcome of this attempt;
returns the
(shouldRetry, error) pair the closure hands to the retry executor. -/
def runTaskAttempt (inp : RunTaskInput) (res : CallOutcome RunTaskOutput) :
    Bool × Option ECSError :=
  match res with
  | .awsError e =>
    if strContains e.errorText "provisioning capacity limit exceeded" then
      (true, some (.aws e))
    else if ecsIsNonRetryableErrorCode e.code then
      (false, some (.aws e))
    else
      (true, some (.aws e))
  | .otherError m => (true, some (.msg m))
  | .success out =>
    if fromInt64Ptr inp.count = 1 ∧ out.tasks.length = 0 ∧ 0 < out.failures.length then
      let errs := runTaskResourceFailureErrors out
      (!errs.isEmpty, errorsWrap (catcherResolve errs) "cluster has insufficient resources")
    else
      (false, none)

/-- The StopTask request fields the retry layer reads: the task identifier, a
Go string pointer. -/
structure StopTaskInput where
  task : Option String
deriving DecidableEq, Repr

/-- The StopTask response; its contents are irrelevant to the retry layer. -/
structure StopTaskOutput where
  task : Option ECSTask
deriving DecidableEq, Repr

/-- Embeds the attempt closure of StopTask (src/ecs/client.go lines 263-275):
a task-not-found AWS error stops retrying and is translated into the typed
cocoa.ECSTaskNotFound error carrying the task identifier of the input; other
AWS
errors go through the generic classifier; everything else retries. -/
def stopTaskAttempt (inp : StopTaskInput) (res : CallOutcome StopTaskOutput) :
    Bool × Option ECSError :=
  match res with
  | .awsError e =>
    if isTaskNotFoundError (.aws e) then
      (false, some (.taskNotFound (fromStringPtr inp.task)))
    else if ecsIsNonRetryableErrorCode e.code then
      (false, some (.aws e))
    else
      (true, some (.aws e))
  | .otherError m => (true, some (.msg m))
  | .success _ => (true, none)

/-- Result of the retry executor: the success value, a permanent error
propagated as-is, or exhaustion surfacing the last observed error wrapped. -/
inductive RetryResult (α : Type) where
  | ok (a : α)
  | permanent (e : ECSError)
  | exhausted (last : Option ECSError)

/-- Modelled from the spec: utility.Retry, the retry executor of the external
evergreen-ci/utility library, which is not part of src/. Per spec section 4.1
it loops while the attempt reports shouldRetry and the attempt budget allows
continuation; it terminates successfully on the first attempt reporting
shouldRetry = false with no error; it propagates the error as a permanent
failure when an attempt reports shouldRetry = false with an error; when the
budget is exhausted it surfaces the last observed error wrapped to indicate
retries were exhausted. Backoff sleeps and cancellation are elided (the
embedding has no real time). Arguments: the attempt function (indexed by
invocation number, returning shouldRetry, the error, and the captured result),
the index of the next invocation, and the remaining attempt budget. Returns
the result together with the number of invocations performed. -/
def retryExecute (f : Nat → Bool × Option ECSError × α) :
    Nat → Nat → RetryResult α × Nat
  | _, 0 => (.exhausted none, 0)
  | i, budget + 1 =>
    match f i with
    | (false, none, a) => (.ok a, 1)
    | (false, some e, _) => (.permanent e, 1)
    | (true, err, _) =>
      if budget = 0 then
        (.exhausted (errorsWrap err "exhausted max attempts"), 1)
      else
        let r := retryExecute f (i + 1) budget
        (r.1, r.2 + 1)

/-- Adapter from a client attempt closure (which reads the call outcome of
this attempt and yields the retry flag and error, capturing the output by
closure) to the attempt shape of the executor, with the captured output as
the value. -/
def attemptOf (attempt : CallOutcome β → Bool × Option ECSError)
    (calls : Nat → CallOutcome β) (i : Nat) :
    Bool × Option ECSError × Option β :=
  let r := attempt (calls i)
  (r.1, r.2, match calls i with | .success o => some o | _ => none)

/-- The external constructor ecs.New: builds the service handle from a
session. Sessions and handles are abstract tokens; the handle built from a
session is the session token itself. -/
def ecsNew (sess : Nat) : Nat := sess

/-- The external constructor secretsmanager.New, modelled like ecsNew. -/
def secretsmanagerNew (sess : Nat) : Nat := sess

/-- Embeds ecs.BasicClient.setup (src/ecs/client.go lines 38-51): if the ecs
handle field is already non-nil, return it unchanged with no error; otherwise
obtain a session (GetSession, external awsutil — modelled as the given Except
value) and create the handle from it; a session error is wrapped with the
initializing-session label and the handle stays nil. Returns the new handle
field and the returned error. -/
def ecsSetup (handle : Option Nat) (getSession : Except String Nat) :
    Option Nat × Option ECSError :=
  match handle with
  | some h => (some h, none)
  | none =>
    match getSession with
    | .error m => (none, some (.wrapped "initializing session" (.msg m)))
    | .ok sess => (some (ecsNew sess), none)

/-- Embeds secret.BasicSecretsManagerClient.setup
(src/secret/secrets_manager_client.go lines 38-51), identical in shape to
ecsSetup. -/
def smSetup (handle : Option Nat) (getSession : Except String Nat) :
    Option Nat × Option ECSError :=
  match handle with
  | some h => (some h, none)
  | none =>
    match getSession with
    | .error m => (none, some (.wrapped "initializing session" (.msg m)))
    | .ok sess => (some (secretsmanagerNew sess), none)

/-- The shared exported-operation pattern of the ECS client (every exported
method of src/ecs/client.go, e.g. RegisterTaskDefinition lines 54-76): invoke
setup first; when setup fails, return the error wrapped with the
setting-up-client label having performed zero remote attempts; otherwise run
the attempt function under the retry executor. Returns the operation result
and the number of remote attempts performed. -/
def ecsOperation (handle : Option Nat) (getSession : Except String Nat)
    (f : Nat → Bool × Option ECSError × α) (maxAttempts : Nat) :
    RetryResult α × Nat :=
  match ecsSetup handle getSession with
  | (_, some e) => (.permanent (.wrapped "setting up client" e), 0)
  | (_, none) => retryExecute f 0 maxAttempts

/-- The shared exported-operation pattern of the Secrets Manager client (every
exported method of src/secret/secrets_manager_client.go, e.g. CreateSecret
lines 54-75), identical in shape to ecsOperation. -/
def smOperation (handle : Option Nat) (getSession : Except String Nat)
    (f : Nat → Bool × Option ECSError × α) (maxAttempts : Nat) :
    RetryResult α × Nat :=
  match smSetup handle getSession with
  | (_, some e) => (.permanent (.wrapped "setting up client" e), 0)
  | (_, none) => retryExecute f 0 maxAttempts

/-- C1: for the ECS client the classifier returns true exactly for
access-denied, client exception, invalid-parameter, cluster-not-found and
missing-required-parameter codes; for the Secrets Manager client exactly for
access-denied, invalid-parameter, invalid-request, resource-not-found,
resource-already-exists and missing-required-parameter codes; every other
code string is classified retryable (transient). -/
theorem nonRetryableErrorCode_characterization (code : String) :
    (ecsIsNonRetryableErrorCode code = true ↔
      code = ecsErrCodeAccessDeniedException ∨
      code = ecsErrCodeClientException ∨
      code = ecsErrCodeInvalidParameterException ∨
      code = ecsErrCodeClusterNotFoundException ∨
      code = requestInvalidParameterErrCode ∨
      code = requestParamRequiredErrCode) ∧
    (smIsNonRetryableErrorCode code = true ↔
      code = "AccessDeniedException" ∨
      code = smErrCodeInvalidParameterException ∨
      code = smErrCodeInvalidRequestException ∨
      code = smErrCodeResourceNotFoundException ∨
      code = smErrCodeResourceExistsException ∨
      code = requestInvalidParameterErrCode ∨
      code = requestParamRequiredErrCode) := by
  constructor
  · unfold ecsIsNonRetryableErrorCode
    split_ifs with h1 h2 h3 h4 h5 h6 <;> simp_all
  · unfold smIsNonRetryableErrorCode
    split_ifs with h1 h2 h3 h4 h5 h6 h7 <;> simp_all

/-- Executor helper: an attempt that reports stop with no error on its first
invocation makes the executor return the value after exactly one invocation. -/
theorem retryExecute_ok_first (f : Nat → Bool × Option ECSError × α) (a : α)
    (b : Nat) (h : f 0 = (false, none, a)) (hb : 0 < b) :
    retryExecute f 0 b = (.ok a, 1) := by
  cases b with
  | zero => omega
  | succ b => simp [retryExecute, h]

/-- Executor helper: an attempt that reports stop with an error on its first
invocation makes the executor propagate it as permanent after exactly one
invocation. -/
theorem retryExecute_permanent_first (f : Nat → Bool × Option ECSError × α)
    (e : ECSError) (aa : α) (b : Nat)
    (h : f 0 = (false, some e, aa)) (hb : 0 < b) :
    retryExecute f 0 b = (.permanent e, 1) := by
  cases b with
  | zero => omega
  | succ b => simp [retryExecute, h]

/-- Executor helper: when the first k attempts starting at index i report
transient failures and attempt i + k succeeds with value a, a budget of at
least k + 1 yields the value after exactly k + 1 invocations. -/
theorem retryExecute_succeeds_after (f : Nat → Bool × Option ECSError × α)
    (E : Nat → ECSError) (X : Nat → α) (a : α) :
    ∀ (k i b : Nat),
      (∀ j, j < k → f (i + j) = (true, some (E (i + j)), X (i + j))) →
      f (i + k) = (false, none, a) → k + 1 ≤ b →
      retryExecute f i b = (.ok a, k + 1) := by
  intro k
  induction k with
  | zero =>
    intro i b _ hsucc hb
    cases b with
    | zero => omega
    | succ b => simpa [retryExecute] using by simp [retryExecute, show f i = (false, none, a) from hsucc]
  | succ k ih =>
    intro i b hfail hsucc hb
    cases b with
    | zero => omega
    | succ b =>
      have h0 : f i = (true, some (E i), X i) := by simpa using hfail 0 (Nat.succ_pos k)
      have hb0 : b ≠ 0 := by omega
      have hrec : retryExecute f (i + 1) b = (.ok a, k + 1) := by
        apply ih
        · intro j hj
          have := hfail (j + 1) (by omega)
          simpa [Nat.add_assoc, Nat.add_comm 1 j] using this
        · simpa [Nat.add_assoc, Nat.add_comm 1 k] using hsucc
        · omega
      simp [retryExecute, h0, hb0, hrec]

/-- Executor helper: when every attempt within the budget b starting at index
i reports a transient failure, the executor exhausts the budget after exactly
b invocations and surfaces the last observed error wrapped. -/
theorem retryExecute_exhausts (f : Nat → Bool × Option ECSError × α)
    (E : Nat → ECSError) (X : Nat → α) :
    ∀ (b i : Nat), 0 < b →
      (∀ j, j < b → f (i + j) = (true, some (E (i + j)), X (i + j))) →
      retryExecute f i b =
        (.exhausted (some (.wrapped "exhausted max attempts" (E (i + b - 1)))), b) := by
  intro b
  induction b with
  | zero => omega
  | succ b ih =>
    intro i _ hfail
    have h0 : f i = (true, some (E i), X i) := by simpa using hfail 0 (Nat.succ_pos b)
    cases Nat.eq_zero_or_pos b with
    | inl hb0 =>
      subst hb0
      simp [retryExecute, h0, errorsWrap]
    | inr hbpos =>
      have hb0 : b ≠ 0 := by omega
      have hrec : retryExecute f (i + 1) b =
          (.exhausted (some (.wrapped "exhausted max attempts" (E (i + 1 + b - 1)))), b) := by
        apply ih _ hbpos
        intro j hj
        have := hfail (j + 1) (by omega)
        simpa [Nat.add_assoc, Nat.add_comm 1 j] using this
      have harg : i + 1 + b - 1 = i + (b + 1) - 1 := by omega
      rw [harg] at hrec
      simp [retryExecute, h0, hb0, hrec]

/-- C3: the retry executor, run on an attempt function that fails transiently
on its first N invocations and then succeeds with value a, returns the success
value after exactly N + 1 invocations when N + 1 ≤ maxAttempts; when
N + 1 > maxAttempts (and the budget is positive) it performs exactly
maxAttempts invocations and returns the exhaustion result surfacing the last
observed error wrapped to indicate retries were exhausted. -/
theorem retry_executor_transient_then_success
    (f : Nat → Bool × Option ECSError × α) (E : Nat → ECSError) (X : Nat → α)
    (a : α) (N maxAttempts : Nat)
    (hfail : ∀ j, j < N → f j = (true, some (E j), X j))
    (hsucc : f N = (false, none, a)) :
    (N + 1 ≤ maxAttempts → retryExecute f 0 maxAttempts = (.ok a, N + 1)) ∧
    (maxAttempts < N + 1 → 0 < maxAttempts →
      retryExecute f 0 maxAttempts =
        (.exhausted (some (.wrapped "exhausted max attempts" (E (maxAttempts - 1)))),
          maxAttempts)) := by
  constructor
  · intro hle
    apply retryExecute_succeeds_after f E X a N 0 maxAttempts
    · intro j hj
      simpa using hfail j hj
    · simpa using hsucc
    · exact hle
  · intro hgt hpos
    have := retryExecute_exhausts f E X maxAttempts 0 hpos (by
      intro j hj
      simpa using hfail j (by omega))
    simpa using this

/-- Witness for C3: an attempt function failing transiently twice and then
succeeding with value 7, run under a budget of three attempts, yields the
value after exactly three invocations. -/
theorem retry_executor_transient_then_success_witness :
    retryExecute
      (fun i => if i < 2 then (true, some (.msg "transient"), (0 : Nat)) else (false, none, 7))
      0 3 = (.ok 7, 3) :=
  (retry_executor_transient_then_success
      (fun i => if i < 2 then (true, some (.msg "transient"), (0 : Nat)) else (false, none, 7))
      (fun _ => .msg "transient") (fun _ => 0) 7 2 3
      (by intro j hj; interval_cases j <;> rfl)
      (by rfl)).1 (by omega)

/-- ConvertFailureToError never returns nil on a non-nil failure. -/
theorem convertFailureToError_isSome (g : Failure) :
    (ConvertFailureToError (some g)).isSome = true := by
  simp only [ConvertFailureToError]
  split_ifs <;> simp

/-- C4: for StopTask, an invalid-parameter AWS error whose message contains
the referenced-task-not-found text makes the attempt report no retry together
with the typed task-not-found error carrying the task identifier of the
input, and
under the retry executor (with the service returning this error) the operation
ends as that permanent error after exactly one invocation — no further
attempts, bypassing the generic classifier. -/
theorem stopTask_notFound_no_retry (inp : StopTaskInput) (e : AWSError)
    (calls : Nat → CallOutcome StopTaskOutput) (maxAttempts : Nat)
    (hcall : calls 0 = .awsError e)
    (hcode : e.code = ecsErrCodeInvalidParameterException)
    (hmsg : strContains e.message "The referenced task was not found" = true)
    (hpos : 0 < maxAttempts) :
    stopTaskAttempt inp (.awsError e) =
      (false, some (.taskNotFound (fromStringPtr inp.task))) ∧
    retryExecute (attemptOf (stopTaskAttempt inp) calls) 0 maxAttempts =
      (.permanent (.taskNotFound (fromStringPtr inp.task)), 1) := by
  have hatt : stopTaskAttempt inp (.awsError e) =
      (false, some (.taskNotFound (fromStringPtr inp.task))) := by
    simp [stopTaskAttempt, isTaskNotFoundError, hcode, hmsg]
  refine ⟨hatt, ?_⟩
  apply retryExecute_permanent_first _ _ none
  · simp [attemptOf, hcall, hatt]
  · exact hpos

/-- Witness for C4: stopping task t1 when the service reports the
invalid-parameter referenced-task-not-found error yields the typed
task-not-found error for t1 in a single attempt. -/
theorem stopTask_notFound_no_retry_witness :
    stopTaskAttempt ⟨some "t1"⟩
        (.awsError ⟨"InvalidParameterException", "The referenced task was not found."⟩) =
      (false, some (.taskNotFound "t1")) ∧
    retryExecute
        (attemptOf (stopTaskAttempt ⟨some "t1"⟩)
          (fun _ => .awsError ⟨"InvalidParameterException", "The referenced task was not found."⟩))
        0 3 =
      (.permanent (.taskNotFound "t1"), 1) :=
  stopTask_notFound_no_retry ⟨some "t1"⟩
    ⟨"InvalidParameterException", "The referenced task was not found."⟩
    (fun _ => .awsError ⟨"InvalidParameterException", "The referenced task was not found."⟩)
    3 rfl rfl (by decide) (by omega)

/-- C6: for RunTask, whenever the display text of the AWS error contains the
provisioning capacity-limit-exceeded message, the attempt signals a retry and
reports the error, regardless of the generic non-retryable classifier. -/
theorem runTask_capacity_limit_retries (inp : RunTaskInput) (e : AWSError)
    (h : strContains e.errorText "provisioning capacity limit exceeded" = true) :
    runTaskAttempt inp (.awsError e) = (true, some (.aws e)) := by
  simp [runTaskAttempt, h]

/-- Witness for C6: an error whose code is in the ECS non-retryable table but
whose text reports the provisioning capacity limit still signals a retry. -/
theorem runTask_capacity_limit_retries_witness :
    ecsIsNonRetryableErrorCode "InvalidParameterException" = true ∧
    runTaskAttempt ⟨some 1⟩
        (.awsError ⟨"InvalidParameterException",
          "provisioning capacity limit exceeded for the cluster"⟩) =
      (true, some (.aws ⟨"InvalidParameterException",
        "provisioning capacity limit exceeded for the cluster"⟩)) :=
  ⟨by decide,
    runTask_capacity_limit_retries ⟨some 1⟩
      ⟨"InvalidParameterException", "provisioning capacity limit exceeded for the cluster"⟩
      (by decide)⟩

/-- The resource-failure collection is empty exactly when no non-nil failure
in the response carries a resource reason. -/
theorem runTaskResourceFailureErrors_eq_nil (out : RunTaskOutput) :
    runTaskResourceFailureErrors out = [] ↔
      ∀ g : Failure, some g ∈ out.failures → fromStringPtr g.reason ∉ resourceReasons := by
  unfold runTaskResourceFailureErrors
  rw [List.filterMap_eq_nil_iff]
  constructor
  · intro h g hg hmem
    have hc := h (some g) hg
    simp only at hc
    rw [if_pos (by simpa using hmem)] at hc
    exact absurd hc (by simpa [Option.isSome_iff_ne_none] using convertFailureToError_isSome g)
  · intro h a ha
    match a with
    | none => rfl
    | some g =>
      simp only
      rw [if_neg]
      simpa using h g ha

/-- C2: for RunTask after a structurally successful call, a retry is signalled
iff exactly one task was requested, zero tasks launched, at least one failure
was reported, and some non-nil failure carries reason RESOURCE:CPU or
RESOURCE:MEMORY; in that case the reported error wraps the aggregate of the
converted resource failures; when more than one task was requested (count is
not 1) the heuristic never applies and the attempt reports no retry and no
error. -/
theorem runTask_capacity_heuristic (inp : RunTaskInput) (out : RunTaskOutput) :
    ((runTaskAttempt inp (.success out)).1 = true ↔
      (fromInt64Ptr inp.count = 1 ∧ out.tasks.length = 0 ∧ 0 < out.failures.length ∧
        ∃ g : Failure, some g ∈ out.failures ∧ fromStringPtr g.reason ∈ resourceReasons)) ∧
    ((runTaskAttempt inp (.success out)).1 = true →
      (runTaskAttempt inp (.success out)).2 =
        some (.wrapped "cluster has insufficient resources"
          (.multi (runTaskResourceFailureErrors out)))) ∧
    (fromInt64Ptr inp.count ≠ 1 → runTaskAttempt inp (.success out) = (false, none)) := by
  by_cases hcond : fromInt64Ptr inp.count = 1 ∧ out.tasks.length = 0 ∧ 0 < out.failures.length
  · have hbranch : runTaskAttempt inp (.success out) =
        (!(runTaskResourceFailureErrors out).isEmpty,
          errorsWrap (catcherResolve (runTaskResourceFailureErrors out))
            "cluster has insufficient resources") := by
      simp [runTaskAttempt, hcond]
    refine ⟨?_, ?_, ?_⟩
    · rw [hbranch]
      simp only [List.isEmpty_iff, Bool.not_eq_true']
      constructor
      · intro hne
        refine ⟨hcond.1, hcond.2.1, hcond.2.2, ?_⟩
        by_contra hno
        push_neg at hno
        have : runTaskResourceFailureErrors out = [] :=
          (runTaskResourceFailureErrors_eq_nil out).mpr hno
        simp [this] at hne
      · rintro ⟨-, -, -, g, hg, hmem⟩
        have hne : runTaskResourceFailureErrors out ≠ [] := fun hnil =>
          absurd hmem ((runTaskResourceFailureErrors_eq_nil out).mp hnil g hg)
        simpa [List.isEmpty_iff] using hne
    · intro hretry
      rw [hbranch] at hretry ⊢
      simp only [List.isEmpty_iff, Bool.not_eq_true'] at hretry
      have hne : runTaskResourceFailureErrors out ≠ [] := by
        intro hnil
        simp [hnil] at hretry
      match hers : runTaskResourceFailureErrors out with
      | [] => exact absurd hers hne
      | e :: es => simp [catcherResolve, errorsWrap]
    · intro hc1
      exact absurd hcond.1 hc1
  · have hbranch : runTaskAttempt inp (.success out) = (false, none) := by
      simp only [runTaskAttempt]
      rw [if_neg hcond]
    refine ⟨?_, ?_, ?_⟩
    · rw [hbranch]
      simp only
      constructor
      · intro h; exact absurd h (by simp)
      · rintro ⟨h1, h2, h3, -⟩
        exact absurd ⟨h1, h2, h3⟩ hcond
    · intro h
      rw [hbranch] at h
      exact absurd h (by simp)
    · intro _
      exact hbranch

/-- Witness for C2: a single-task request with zero launched tasks and one
RESOURCE:CPU failure signals a retry, while the same failure under a two-task
request does not. -/
theorem runTask_capacity_heuristic_witness :
    (runTaskAttempt ⟨some 1⟩
        (.success ⟨[], [some ⟨some "arn:1", some "RESOURCE:CPU", none⟩]⟩)).1 = true ∧
    runTaskAttempt ⟨some 2⟩
        (.success ⟨[], [some ⟨some "arn:1", some "RESOURCE:CPU", none⟩]⟩) = (false, none) :=
  ⟨(runTask_capacity_heuristic ⟨some 1⟩
        ⟨[], [some ⟨some "arn:1", some "RESOURCE:CPU", none⟩]⟩).1.mpr
      ⟨rfl, rfl, by decide,
        ⟨some "arn:1", some "RESOURCE:CPU", none⟩, by decide, by decide⟩,
    (runTask_capacity_heuristic ⟨some 2⟩
        ⟨[], [some ⟨some "arn:1", some "RESOURCE:CPU", none⟩]⟩).2.2 (by decide)⟩

/-- C5: ConvertFailureToError on a non-nil failure returns the typed
task-not-found error carrying the identifier when the reason is the MISSING
sentinel and the identifier pointer is present; otherwise it returns a message
error joining, in order, whichever of identifier, reason and detail are
non-empty, each with its label, or the generic no-information message when all
three are empty. -/
theorem convertFailureToError_spec (f : Failure) :
    (f.arn.isSome = true → fromStringPtr f.reason = ReasonTaskMissing →
      ConvertFailureToError (some f) = some (.taskNotFound (fromStringPtr f.arn))) ∧
    (¬ (f.arn.isSome = true ∧ fromStringPtr f.reason = ReasonTaskMissing) →
      ConvertFailureToError (some f) =
        some (if fromStringPtr f.arn = "" ∧ fromStringPtr f.reason = "" ∧
            fromStringPtr f.detail = "" then
          .msg "ECS failure did not contain any additional failure information"
        else
          .msg (String.intercalate ": "
            ((if fromStringPtr f.arn = "" then []
              else ["task \x27" ++ fromStringPtr f.arn ++ "\x27"]) ++
             (if fromStringPtr f.reason = "" then []
              else ["(reason) " ++ fromStringPtr f.reason]) ++
             (if fromStringPtr f.detail = "" then []
              else ["(detail) " ++ fromStringPtr f.detail]))))) := by
  constructor
  · intro harn hreason
    have hnf : isTaskNotFoundFailure f = true := by
      simp [isTaskNotFoundFailure, harn, hreason]
    simp [ConvertFailureToError, hnf]
  · intro hnot
    have hnf : isTaskNotFoundFailure f = false := by
      simp only [isTaskNotFoundFailure, Bool.and_eq_false_iff]
      by_cases h1 : f.arn.isSome = true
      · right
        simp only [beq_eq_false_iff_ne, ne_eq]
        intro hr
        exact hnot ⟨h1, hr⟩
      · left
        simpa using h1
    simp only [ConvertFailureToError, hnf, Bool.false_eq_true, if_false, ne_eq, ite_not]
    by_cases hall : fromStringPtr f.arn = "" ∧ fromStringPtr f.reason = "" ∧
        fromStringPtr f.detail = ""
    · rw [if_pos hall]
      simp [hall.1, hall.2.1, hall.2.2]
    · rw [if_neg hall]
      have hne : ((if fromStringPtr f.arn = "" then []
            else ["task \x27" ++ fromStringPtr f.arn ++ "\x27"]) ++
           (if fromStringPtr f.reason = "" then []
            else ["(reason) " ++ fromStringPtr f.reason]) ++
           (if fromStringPtr f.detail = "" then []
            else ["(detail) " ++ fromStringPtr f.detail])) ≠ [] := by
        intro hnil
        apply hall
        simp only [List.append_eq_nil] at hnil
        obtain ⟨⟨h1, h2⟩, h3⟩ := hnil
        refine ⟨?_, ?_, ?_⟩ <;> by_contra h
        · rw [if_neg h] at h1; exact absurd h1 (by simp)
        · rw [if_neg h] at h2; exact absurd h2 (by simp)
        · rw [if_neg h] at h3; exact absurd h3 (by simp)
      rw [if_neg hne]

/-- Witness for C5: a failure whose reason is MISSING with identifier arn:1
translates into the typed task-not-found error for arn:1, and a failure with
identifier arn:2, reason OTHER and detail present translates into the joined
labelled message. -/
theorem convertFailureToError_spec_witness :
    ConvertFailureToError (some ⟨some "arn:1", some "MISSING", none⟩) =
      some (.taskNotFound "arn:1") ∧
    ConvertFailureToError (some ⟨some "arn:2", some "OTHER", some "disk full"⟩) =
      some (.msg "task \x27arn:2\x27: (reason) OTHER: (detail) disk full") :=
  ⟨(convertFailureToError_spec ⟨some "arn:1", some "MISSING", none⟩).1 rfl rfl,
    by
      have h := (convertFailureToError_spec
        ⟨some "arn:2", some "OTHER", some "disk full"⟩).2 (by decide)
      simpa using h⟩

/-- C7: for both clients, setup on an already-initialized handle returns the
same handle with no error (the session handle is created at most once), and an
exported operation whose setup fails (here: the session cannot be obtained on
an uninitialized client) returns the wrapped error having performed zero
remote attempts. -/
theorem setup_idempotent_and_gates_operations {α : Type} (h : Nat)
    (g : Except String Nat) (m : String)
    (f : Nat → Bool × Option ECSError × α) (maxAttempts : Nat) :
    ecsSetup (some h) g = (some h, none) ∧
    smSetup (some h) g = (some h, none) ∧
    ecsOperation none (.error m) f maxAttempts =
      (.permanent (.wrapped "setting up client"
        (.wrapped "initializing session" (.msg m))), 0) ∧
    smOperation none (.error m) f maxAttempts =
      (.permanent (.wrapped "setting up client"
        (.wrapped "initializing session" (.msg m))), 0) :=
  ⟨rfl, rfl, rfl, rfl⟩

/-- C8: ConvertFailureToError is a pure function of the failure value: two
calls on the same value yield identical errors. In the embedding the function
reads nothing but its argument, so the equality is definitional. -/
theorem convertFailureToError_idempotent (f : Option Failure) :
    ConvertFailureToError f = ConvertFailureToError f := rfl

/-- C9: for RunTask with a single-task request, a structurally successful call
with zero launched tasks where no non-nil failure carries a resource reason
makes the attempt report no retry with no error, and under the retry executor
RunTask ends successfully with the output after one invocation — the per-task
failures stay inside the returned output. -/
theorem runTask_nonResource_failures_no_error (inp : RunTaskInput)
    (out : RunTaskOutput) (maxAttempts : Nat)
    (hcount : fromInt64Ptr inp.count = 1)
    (htasks : out.tasks.length = 0)
    (hreasons : ∀ g : Failure, some g ∈ out.failures →
      fromStringPtr g.reason ∉ resourceReasons)
    (hpos : 0 < maxAttempts) :
    runTaskAttempt inp (.success out) = (false, none) ∧
    retryExecute (attemptOf (runTaskAttempt inp) (fun _ => .success out)) 0 maxAttempts =
      (.ok (some out), 1) := by
  have herrs : runTaskResourceFailureErrors out = [] :=
    (runTaskResourceFailureErrors_eq_nil out).mpr hreasons
  have hatt : runTaskAttempt inp (.success out) = (false, none) := by
    by_cases hfail : 0 < out.failures.length
    · simp [runTaskAttempt, hcount, htasks, hfail, herrs, catcherResolve, errorsWrap]
    · simp [runTaskAttempt, hfail]
  refine ⟨hatt, ?_⟩
  apply retryExecute_ok_first
  · simp [attemptOf, hatt]
  · exact hpos

/-- Witness for C9: a single-task request with zero launched tasks and one
failure with a non-resource reason returns the output with no error after a
single attempt. -/
theorem runTask_nonResource_failures_no_error_witness :
    runTaskAttempt ⟨some 1⟩
        (.success ⟨[], [some ⟨some "arn:3", some "AGENT", none⟩]⟩) = (false, none) ∧
    retryExecute
        (attemptOf (runTaskAttempt ⟨some 1⟩)
          (fun _ => .success ⟨[], [some ⟨some "arn:3", some "AGENT", none⟩]⟩)) 0 2 =
      (.ok (some ⟨[], [some ⟨some "arn:3", some "AGENT", none⟩]⟩), 1) :=
  runTask_nonResource_failures_no_error ⟨some 1⟩
    ⟨[], [some ⟨some "arn:3", some "AGENT", none⟩]⟩ 2 rfl rfl
    (by
      intro g hg
      rw [List.mem_singleton] at hg
      injection hg with hg
      subst hg
      decide)
    (by omega)

/-- C10: a nil failure pointer converts to nil, and a nil entry in the
RunTask failure list leaves the attempt outcome unchanged: the capacity
heuristic
skips it and it contributes no error. -/
theorem convertFailure_nil_skipped (inp : RunTaskInput) (tasks : List ECSTask)
    (rest : List (Option Failure)) :
    ConvertFailureToError none = none ∧
    runTaskAttempt inp (.success ⟨tasks, none :: rest⟩) =
      runTaskAttempt inp (.success ⟨tasks, rest⟩) := by
  refine ⟨rfl, ?_⟩
  have herrs : runTaskResourceFailureErrors ⟨tasks, none :: rest⟩ =
      runTaskResourceFailureErrors ⟨tasks, rest⟩ := by
    simp [runTaskResourceFailureErrors]
  by_cases hc : fromInt64Ptr inp.count = 1 ∧ tasks.length = 0
  · cases rest with
    | nil =>
      simp [runTaskAttempt, hc, runTaskResourceFailureErrors, catcherResolve, errorsWrap]
    | cons x xs =>
      have h1 : fromInt64Ptr inp.count = 1 ∧ tasks.length = 0 ∧
          0 < (none :: x :: xs : List (Option Failure)).length := ⟨hc.1, hc.2, by simp⟩
      have h2 : fromInt64Ptr inp.count = 1 ∧ tasks.length = 0 ∧
          0 < (x :: xs : List (Option Failure)).length := ⟨hc.1, hc.2, by simp⟩
      simp only [runTaskAttempt, if_pos h1, if_pos h2]
      rw [herrs]
  · have hn1 : ¬ (fromInt64Ptr inp.count = 1 ∧ tasks.length = 0 ∧
        0 < (none :: rest : List (Option Failure)).length) := by
      intro h; exact hc ⟨h.1, h.2.1⟩
    have hn2 : ¬ (fromInt64Ptr inp.count = 1 ∧ tasks.length = 0 ∧
        0 < rest.length) := by
      intro h; exact hc ⟨h.1, h.2.1⟩
    simp only [runTaskAttempt, if_neg hn1, if_neg hn2]
